import Mathlib

/-!
Shallow embedding of the `mcp-chrome` native-server core:
the file-staging subsystem (`FileHandler` in
`app/native-server/src/file-handler.ts`), the browser manifest-path
resolution (`browser-config.ts`, the second document of the same source
file), and the registration command's tier decision (the CLI entry point).

Filesystem state is modelled explicitly: a map from path strings to file
metadata.  Platform effects (network fetch, URL parsing, randomness,
clock) are passed in as oracle parameters, so every operation is a pure
Lean function of the state and the oracle.
-/

namespace McpChrome

/-- JavaScript truthiness of an optional string field: `undefined`/missing
and the empty string are falsy, every other string is truthy
(`if (fileUrl) ...`). -/
def truthy : Option String → Bool
  | none => false
  | some s => s ≠ ""

/-- JavaScript `s.startsWith(pre)`: `pre` is a character-prefix of `s`. -/
def jsStartsWith (s pre : String) : Bool :=
  pre.data.isPrefixOf s.data

/-- Node `path.join` on the argument list, for the way this codebase uses
it: every segment is non-empty and free of separators and `.`/`..`
components, on which Node's normalisation is the identity, so the join is
the separator-interleaved concatenation.  `sep` is the platform separator
(`"/"` on POSIX, `"\\"` on Windows). -/
def pjoin (sep : String) : List String → String
  | [] => ""
  | [p] => p
  | p :: ps => p ++ sep ++ pjoin sep ps

/-- `p` is a string prefix of `s`. -/
def strPrefixOf (p s : String) : Prop := ∃ t, s = p ++ t

/-- `t` is a string suffix of `s`. -/
def strSuffixOf (t s : String) : Prop := ∃ p, s = p ++ t

/-- Metadata the handler reads from a filesystem entry (`fs.statSync` /
`fs.accessSync`): whether the entry is a regular file, whether it is
readable by the process, and its size in bytes. -/
structure FileStat where
  isFile : Bool
  readable : Bool
  size : Nat
deriving Repr, DecidableEq

/-- The filesystem as the handler sees it: each path either maps to an
entry's metadata or is absent (`fs.existsSync` is `isSome`). -/
def FS := String → Option FileStat

/-- `fs.writeFileSync filePath buffer`: after the write the path holds a
readable regular file of the buffer's size. -/
def fsWrite (fs : FS) (p : String) (size : Nat) : FS :=
  fun q => if q = p then some ⟨true, true, size⟩ else fs q

/-- `fs.unlinkSync p`: the path is removed. -/
def fsUnlink (fs : FS) (p : String) : FS :=
  fun q => if q = p then none else fs q

/-- Index of the last occurrence of `c` in `l`, if any. -/
def lastIdxOf (c : Char) (l : List Char) : Option Nat :=
  match l.reverse.findIdx? (fun x => x = c) with
  | none => none
  | some j => some (l.length - 1 - j)

/-- Node `path.basename(p)` for POSIX-style separators: the last non-empty
`/`-separated segment (trailing slashes are ignored), `""` when there is
none.  URL pathnames always use `/`, which is the only way this codebase
feeds it. -/
def posixBasename (p : String) : String :=
  (((p.splitOn "/").filter (fun s => s ≠ "")).getLast?).getD ""

/-- Node `path.extname(b)` applied to a path that is already a basename:
the substring from the last `.` to the end, except that a `.` in first
position starts no extension and the components `"."` and `".."` have
none. -/
def posixExtname (b : String) : String :=
  if b = "." ∨ b = ".." then ""
  else
    match lastIdxOf '.' b.data with
    | none => ""
    | some 0 => ""
    | some i => String.mk (b.data.drop i)

/-- Node `path.basename(b, ext)` applied to a basename `b`: strips `ext`
when it is a non-empty proper suffix of `b`. -/
def stripExtSuffix (b ext : String) : String :=
  if ext ≠ "" ∧ ext.data.length < b.data.length ∧ ext.data.isSuffixOf b.data then
    String.mk (b.data.take (b.data.length - ext.data.length))
  else b

/-- `FileHandler.generateFileName(url)`.  The WHATWG `URL` constructor is a
platform library, passed in as `parseURL`: `some pathname` when parsing
succeeds, `none` when the constructor throws (caught, falling through to
the random name).  `rand4`/`rand8` are the hex strings produced by
`crypto.randomBytes(4).toString('hex')` / `randomBytes(8).toString('hex')`. -/
def generateFileName (parseURL : String → Option String) (rand4 rand8 : String)
    (url : String) : String :=
  if url ≠ "" then
    match parseURL url with
    | some pathname =>
      let basename := posixBasename pathname
      if basename ≠ "" ∧ basename ≠ "/" then
        let ext := posixExtname basename
        let name := stripExtSuffix basename ext
        name ++ "-" ++ rand4 ++ ext
      else "upload-" ++ rand8 ++ ".bin"
    | none => "upload-" ++ rand8 ++ ".bin"
  else "upload-" ++ rand8 ++ ".bin"

/-- JavaScript template stringification of a caught `Error` value. -/
def errStr (msg : String) : String := "Error: " ++ msg

/-- The `node-fetch` response as the handler consumes it: `ok`,
`statusText`, and the body buffer's length. -/
structure FetchResp where
  ok : Bool
  statusText : String
  bodyLen : Nat
deriving Repr, DecidableEq

/-- The platform effects `FileHandler` performs, passed in as pure
functions/values: `fetch` (network; `Except.error` is the stringified
rejection), WHATWG URL parsing, the two `crypto.randomBytes(·).toString('hex')`
draws, the decoded length of a base64 payload (`Buffer.from(s,'base64').length`),
and `Date.now()`. -/
structure Oracle where
  fetch : String → Except String FetchResp
  parseURL : String → Option String
  rand4 : String
  rand8 : String
  b64Len : String → Nat
  now : Int

/-- The structured response object the handler builds; absent object
fields are `none`. -/
structure FHResponse where
  success : Bool
  filePath : Option String := none
  fileName : Option String := none
  size : Option Nat := none
  error : Option String := none
  message : Option String := none
deriving Repr, DecidableEq

/-- A file-staging request `{action, fileUrl, base64Data, fileName,
filePath}`; absent fields are `none`. -/
structure Request where
  action : Option String := none
  fileUrl : Option String := none
  base64Data : Option String := none
  fileName : Option String := none
  filePath : Option String := none
deriving Repr, DecidableEq

/-- `FileHandler.downloadFile(fileUrl, fileName?)`: fetch, fail on a
non-success status, pick the caller's name or synthesize one, write the
body into the temp directory.  Every throw inside the body is rewrapped by
the method's own catch as `Failed to download file from URL: ...`. -/
def downloadFile (o : Oracle) (sep tempDir : String) (fs : FS)
    (fileUrl : String) (fileName : Option String) :
    Except String (FHResponse × FS) :=
  match o.fetch fileUrl with
  | .error e => .error ("Failed to download file from URL: " ++ e)
  | .ok resp =>
    if ¬resp.ok then
      .error ("Failed to download file from URL: " ++
        errStr ("Failed to download file: " ++ resp.statusText))
    else
      let finalFileName :=
        if truthy fileName then fileName.getD ""
        else generateFileName o.parseURL o.rand4 o.rand8 fileUrl
      let filePath := pjoin sep [tempDir, finalFileName]
      .ok ({ success := true, filePath := some filePath,
             fileName := some finalFileName, size := some resp.bodyLen },
           fsWrite fs filePath resp.bodyLen)

/-- The regex replace `base64Data.replace(/^data:.*?;base64,/, '')`: when
the string starts with `data:`, the (lazily matched) prefix up to and
including the first `;base64,` is removed.  Data URLs contain no newline,
so the regex `.` restriction is moot. -/
def stripDataUrl (s : String) : String :=
  if jsStartsWith s "data:" then
    match s.splitOn ";base64," with
    | [] => s
    | [_] => s
    | _ :: rest => String.intercalate ";base64," rest
  else s

/-- `FileHandler.saveBase64File(base64Data, fileName?)`: strip a data-URL
prefix, decode, pick the caller's name or `upload-<now>.bin`, write the
bytes.  `Buffer.from(·,'base64')` is lenient and never throws, so the
method's catch never fires in this model. -/
def saveBase64File (o : Oracle) (sep tempDir : String) (fs : FS)
    (base64Data : String) (fileName : Option String) :
    Except String (FHResponse × FS) :=
  let base64Content := stripDataUrl base64Data
  let len := o.b64Len base64Content
  let finalFileName :=
    if truthy fileName then fileName.getD ""
    else "upload-" ++ toString o.now ++ ".bin"
  let filePath := pjoin sep [tempDir, finalFileName]
  .ok ({ success := true, filePath := some filePath,
         fileName := some finalFileName, size := some len },
       fsWrite fs filePath len)

/-- `FileHandler.verifyFile(filePath)`: existence, regular-file, and
readability checks against the original path; no copy, no write.  The
body's throws are rewrapped by the method's catch as
`Failed to verify file: ...` (the readability failure is the stringified
`EACCES` system error from `fs.accessSync`). -/
def verifyFile (fs : FS) (filePath : String) : Except String FHResponse :=
  match fs filePath with
  | none =>
    .error ("Failed to verify file: " ++ errStr ("File does not exist: " ++ filePath))
  | some st =>
    if ¬st.isFile then
      .error ("Failed to verify file: " ++ errStr ("Path is not a file: " ++ filePath))
    else if ¬st.readable then
      .error ("Failed to verify file: " ++
        errStr ("EACCES: permission denied, access " ++ filePath))
    else
      .ok { success := true, filePath := some filePath,
            fileName := some (posixBasename filePath), size := some st.size }

/-- `FileHandler.cleanupFile(filePath)`: refuse when the path does not
start with the temp directory, otherwise unlink it when it exists.  With
`filePath` absent, `filePath.startsWith` throws a `TypeError`, caught by
the method's own catch. -/
def cleanupFile (tempDir : String) (fs : FS) (filePath : Option String) :
    FHResponse × FS :=
  match filePath with
  | none =>
    ({ success := false,
       error := some ("Failed to cleanup file: " ++
         "TypeError: Cannot read properties of undefined (reading 'startsWith')") },
     fs)
  | some p =>
    if ¬ jsStartsWith p tempDir then
      ({ success := false, error := some "Can only cleanup files in temp directory" }, fs)
    else
      let fs' := if (fs p).isSome then fsUnlink fs p else fs
      ({ success := true, message := some "File cleaned up successfully" }, fs')

/-- JavaScript template stringification of a possibly-undefined string. -/
def jsStr : Option String → String
  | some s => s
  | none => "undefined"

/-- `FileHandler.handleFileRequest(request)`: the public dispatch.  The
`prepareFile` branch tries `fileUrl`, then `base64Data`, then `filePath`
by JS truthiness; when all three are falsy the `break` falls out of the
switch and the method returns `undefined` (`none`).  The surrounding
try/catch converts every internal throw into `{success:false, error}`. -/
def handleFileRequest (o : Oracle) (sep tempDir : String) (fs : FS)
    (req : Request) : Option FHResponse × FS :=
  if req.action = some "prepareFile" then
    if truthy req.fileUrl then
      match downloadFile o sep tempDir fs (req.fileUrl.getD "") req.fileName with
      | .ok (r, fs') => (some r, fs')
      | .error e => (some { success := false, error := some e }, fs)
    else if truthy req.base64Data then
      match saveBase64File o sep tempDir fs (req.base64Data.getD "") req.fileName with
      | .ok (r, fs') => (some r, fs')
      | .error e => (some { success := false, error := some e }, fs)
    else if truthy req.filePath then
      match verifyFile fs (req.filePath.getD "") with
      | .ok r => (some r, fs)
      | .error e => (some { success := false, error := some e }, fs)
    else (none, fs)
  else if req.action = some "cleanupFile" then
    let (r, fs') := cleanupFile tempDir fs req.filePath
    (some r, fs')
  else
    (some { success := false,
            error := some ("Unknown file action: " ++ jsStr req.action) }, fs)

/-- One directory entry as `cleanupOldFiles` sees it: its name, its
`mtimeMs`, and whether `fs.statSync` / `fs.unlinkSync` on it throws (a
vanished or protected entry). -/
structure SweepEntry where
  name : String
  mtime : Int
  statFails : Bool := false
  unlinkFails : Bool := false
deriving Repr, DecidableEq

/-- `60 * 60 * 1000`, the hard-coded retention threshold of
`cleanupOldFiles`. -/
def oneHour : Int := 60 * 60 * 1000

/-- The `for` loop of `FileHandler.cleanupOldFiles`, returning the entries
still present afterwards.  The single try/catch wraps the whole loop, so
the first `statSync`/`unlinkSync` throw aborts the remaining iterations
(the error is logged by the catch and not propagated). -/
def sweepLoop (now : Int) : List SweepEntry → List SweepEntry
  | [] => []
  | e :: rest =>
    if e.statFails then e :: rest
    else if now - e.mtime > oneHour then
      if e.unlinkFails then e :: rest
      else sweepLoop now rest
    else e :: sweepLoop now rest

/-- `FileHandler.cleanupOldFiles()`: list the temp directory and delete
every entry older than one hour, with the loop semantics of `sweepLoop`;
always returns (any error is caught and logged at the top level). -/
def cleanupOldFiles (now : Int) (entries : List SweepEntry) : List SweepEntry :=
  sweepLoop now entries

/-! ## Browser manifest-path resolution (`browser-config.ts`)

The browsers are the TS string-enum values `'chrome'` and `'chromium'`;
the resolvers switch on the string at runtime, so they are embedded as
functions of `String` (the `default` switch branch is the Chrome path).
`os.platform()` is branched three ways: `'win32'`, `'darwin'`, and
everything else treated as Linux. -/

/-- The three platform branches of `browser-config.ts`
(`win32` / `darwin` / everything-else-is-Linux). -/
inductive Platform where
  | win32
  | darwin
  | linux
deriving Repr, DecidableEq

/-- The read-only environment the resolvers consult: `process.env.APPDATA`,
`process.env.ProgramFiles` (absent or empty strings fall back, by JS
truthiness), and `os.homedir()`. -/
structure Env where
  appData : Option String := none
  programFiles : Option String := none
  home : String
deriving Repr, DecidableEq

/-- JS `a || b` on an optional environment string. -/
def orDefault : Option String → String → String
  | none, d => d
  | some s, d => if s = "" then d else s

/-- Modelled from the spec: `HOST_NAME`, the registered host identifier
imported from `./constant` (a file not included in the sources).  The spec
calls it "the registered host identifier"; the claims depend only on it
being one fixed name. -/
def HOST_NAME : String := "com.chromemcp.nativehost"

/-- The platform path separator `path.join` uses. -/
def sepOf : Platform → String
  | .win32 => "\\"
  | _ => "/"

/-- `getUserManifestPathForBrowser(browser)` as a function of the platform
and environment. -/
def getUserManifestPathForBrowser (platform : Platform) (env : Env)
    (browser : String) : String :=
  match platform with
  | .win32 =>
    let appData := orDefault env.appData (pjoin "\\" [env.home, "AppData", "Roaming"])
    if browser = "chrome" then
      pjoin "\\" [appData, "Google", "Chrome", "NativeMessagingHosts", HOST_NAME ++ ".json"]
    else if browser = "chromium" then
      pjoin "\\" [appData, "Chromium", "NativeMessagingHosts", HOST_NAME ++ ".json"]
    else
      pjoin "\\" [appData, "Google", "Chrome", "NativeMessagingHosts", HOST_NAME ++ ".json"]
  | .darwin =>
    let home := env.home
    if browser = "chrome" then
      pjoin "/" [home, "Library", "Application Support", "Google", "Chrome",
        "NativeMessagingHosts", HOST_NAME ++ ".json"]
    else if browser = "chromium" then
      pjoin "/" [home, "Library", "Application Support", "Chromium",
        "NativeMessagingHosts", HOST_NAME ++ ".json"]
    else
      pjoin "/" [home, "Library", "Application Support", "Google", "Chrome",
        "NativeMessagingHosts", HOST_NAME ++ ".json"]
  | .linux =>
    let home := env.home
    if browser = "chrome" then
      pjoin "/" [home, ".config", "google-chrome", "NativeMessagingHosts", HOST_NAME ++ ".json"]
    else if browser = "chromium" then
      pjoin "/" [home, ".config", "chromium", "NativeMessagingHosts", HOST_NAME ++ ".json"]
    else
      pjoin "/" [home, ".config", "google-chrome", "NativeMessagingHosts", HOST_NAME ++ ".json"]

/-- `getSystemManifestPathForBrowser(browser)` as a function of the
platform and environment. -/
def getSystemManifestPathForBrowser (platform : Platform) (env : Env)
    (browser : String) : String :=
  match platform with
  | .win32 =>
    let programFiles := orDefault env.programFiles "C:\\Program Files"
    if browser = "chrome" then
      pjoin "\\" [programFiles, "Google", "Chrome", "NativeMessagingHosts", HOST_NAME ++ ".json"]
    else if browser = "chromium" then
      pjoin "\\" [programFiles, "Chromium", "NativeMessagingHosts", HOST_NAME ++ ".json"]
    else
      pjoin "\\" [programFiles, "Google", "Chrome", "NativeMessagingHosts", HOST_NAME ++ ".json"]
  | .darwin =>
    if browser = "chrome" then
      pjoin "/" ["/Library", "Google", "Chrome", "NativeMessagingHosts", HOST_NAME ++ ".json"]
    else if browser = "chromium" then
      pjoin "/" ["/Library", "Application Support", "Chromium",
        "NativeMessagingHosts", HOST_NAME ++ ".json"]
    else
      pjoin "/" ["/Library", "Google", "Chrome", "NativeMessagingHosts", HOST_NAME ++ ".json"]
  | .linux =>
    if browser = "chrome" then
      pjoin "/" ["/etc", "opt", "chrome", "native-messaging-hosts", HOST_NAME ++ ".json"]
    else if browser = "chromium" then
      pjoin "/" ["/etc", "chromium", "native-messaging-hosts", HOST_NAME ++ ".json"]
    else
      pjoin "/" ["/etc", "opt", "chrome", "native-messaging-hosts", HOST_NAME ++ ".json"]

/-- The installation tier. -/
inductive Tier where
  | user
  | system
deriving Repr, DecidableEq

/-- Tier-dispatching view of the two resolvers (`BrowserConfig` uses the
user path for tier `user` and the system path for tier `system`). -/
def resolveManifestPath (tier : Tier) (platform : Platform) (env : Env)
    (browser : String) : String :=
  match tier with
  | .user => getUserManifestPathForBrowser platform env browser
  | .system => getSystemManifestPathForBrowser platform env browser

/-! ## The `register` command's tier decision (CLI entry point)

`isRoot` is `process.getuid && process.getuid() === 0` — on Windows
`process.getuid` is `undefined`, elsewhere it yields the uid.  `isAdmin`
is probed only on win32, via `require('is-admin')()`; when the probe
throws (`none`) the catch sets it to `false`.  The tier is system iff
`options.system || isRoot || isAdmin`. -/

/-- The register action's privilege detection: `uid` is `some u` when
`process.getuid` exists (non-Windows), `adminProbe` is `some b` when the
win32 `is-admin` probe returns `b` and `none` when it throws. -/
def detectElevated (platform : Platform) (uid : Option Nat)
    (adminProbe : Option Bool) : Bool :=
  let isRoot :=
    match uid with
    | some u => u = 0
    | none => false
  let isAdmin :=
    match platform with
    | .win32 =>
      match adminProbe with
      | some b => b
      | none => false
    | _ => false
  isRoot || isAdmin

/-- The register action's tier decision: system-level registration runs
iff `--system` was passed or the process is elevated. -/
def resolveTier (systemFlag : Bool) (platform : Platform) (uid : Option Nat)
    (adminProbe : Option Bool) : Tier :=
  if systemFlag || detectElevated platform uid adminProbe then .system else .user

/-- The manifest-path root prescribed by the spec's platform table
(transcribed from the spec, to be compared against the resolvers):
`%APPDATA%`- and `%ProgramFiles%`-based on Windows, `Library`-based on
macOS, `~/.config` or `/etc` based on Linux. -/
def specRoot (platform : Platform) (tier : Tier) (env : Env) : String :=
  match platform, tier with
  | .win32, .user => orDefault env.appData (pjoin "\\" [env.home, "AppData", "Roaming"])
  | .win32, .system => orDefault env.programFiles "C:\\Program Files"
  | .darwin, .user => env.home ++ "/Library"
  | .darwin, .system => "/Library"
  | .linux, .user => env.home ++ "/.config"
  | .linux, .system => "/etc"

/-- The manifest-path suffix prescribed by the spec (transcribed from the
spec): `NativeMessagingHosts/<host>.json`, in the platform separator, with
the platform-lowercase `native-messaging-hosts` on system-tier Linux. -/
def specTailPart (platform : Platform) (tier : Tier) : String :=
  match platform, tier with
  | .win32, _ => "NativeMessagingHosts\\" ++ HOST_NAME ++ ".json"
  | .darwin, _ => "NativeMessagingHosts/" ++ HOST_NAME ++ ".json"
  | .linux, .user => "NativeMessagingHosts/" ++ HOST_NAME ++ ".json"
  | .linux, .system => "native-messaging-hosts/" ++ HOST_NAME ++ ".json"

theorem str_append_left_cancel {a b c : String} (h : a ++ b = a ++ c) : b = c := by
  apply String.ext
  have hd := congrArg String.data h
  rw [String.data_append, String.data_append] at hd
  exact List.append_cancel_left hd

theorem str_append_right_cancel {a b c : String} (h : a ++ c = b ++ c) : a = b := by
  apply String.ext
  have hd := congrArg String.data h
  rw [String.data_append, String.data_append] at hd
  exact List.append_cancel_right hd

theorem jsStartsWith_append (t u : String) : jsStartsWith (t ++ u) t = true := by
  unfold jsStartsWith
  rw [String.data_append, List.isPrefixOf_iff_prefix]
  exact List.prefix_append t.data u.data

/-- Decomposing a path as `root ++ (mid ++ suffix)` yields the three facts
the spec's table property asks for. -/
theorem decomp_props (root mid suf s : String) (h : s = root ++ (mid ++ suf))
    (hs : suf ≠ "") : s ≠ "" ∧ strPrefixOf root s ∧ strSuffixOf suf s := by
  refine ⟨?_, ⟨mid ++ suf, h⟩, ⟨root ++ mid, by rw [h, String.append_assoc]⟩⟩
  intro h0
  apply hs
  apply String.ext
  have hd := congrArg String.data (h0 ▸ h)
  rw [String.data_append, String.data_append] at hd
  have hnil : root.data ++ (mid.data ++ suf.data) = ([] : List Char) := hd.symm
  rcases List.append_eq_nil.mp hnil with ⟨-, h2⟩
  rcases List.append_eq_nil.mp h2 with ⟨-, h3⟩
  simpa using h3

theorem generateFileName_inj (parse : String → Option String)
    (r4 r4' r8 r8' url : String) (h4 : r4 ≠ r4') (h8 : r8 ≠ r8') :
    generateFileName parse r4 r8 url ≠ generateFileName parse r4' r8' url := by
  intro heq
  unfold generateFileName at heq
  by_cases hu : url = ""
  · simp only [hu, ne_eq, not_true_eq_false, if_false] at heq
    exact h8 (str_append_left_cancel (str_append_right_cancel heq))
  · simp only [ne_eq, hu, not_false_eq_true, if_true] at heq
    cases hp : parse url with
    | none =>
      rw [hp] at heq
      exact h8 (str_append_left_cancel (str_append_right_cancel heq))
    | some pathname =>
      rw [hp] at heq
      by_cases hb : posixBasename pathname ≠ "" ∧ posixBasename pathname ≠ "/"
      · simp only [hb, if_true] at heq
        exact h4 (str_append_left_cancel (str_append_right_cancel heq))
      · simp only [hb, if_false] at heq
        exact h8 (str_append_left_cancel (str_append_right_cancel heq))

/-! ## Claim theorems -/


/-- C9: for every path inside the scratch root that does not exist on disk,
`cleanupFile` returns success without performing any deletion, and the
filesystem state is unchanged. -/
theorem cleanup_inside_nonexistent_is_noop (tempDir rest : String) (fs : FS)
    (h : fs (tempDir ++ rest) = none) :
    cleanupFile tempDir fs (some (tempDir ++ rest)) =
      ({ success := true, message := some "File cleaned up successfully" }, fs) := by
  simp [cleanupFile, jsStartsWith_append, h]

theorem cleanup_inside_nonexistent_is_noop_witness :
    cleanupFile "/tmp/chrome-mcp-uploads" (fun _ => none)
      (some ("/tmp/chrome-mcp-uploads" ++ "/a.txt")) =
      ({ success := true, message := some "File cleaned up successfully" },
       (fun _ => none : FS)) :=
  cleanup_inside_nonexistent_is_noop "/tmp/chrome-mcp-uploads" "/a.txt" (fun _ => none) rfl

/-- C1 (code evaluation at the failing input): `cleanupFile` on the
path-traversal input `tempDir ++ "/../../etc/passwd"` — which resolves to
`/etc/passwd`, outside the scratch root — passes the `startsWith` prefix
check, returns a SUCCESS result, and performs the deletion.  The claim
(and the method's own comment) require a failure result and no deletion
for any path that does not resolve into the scratch root. -/
theorem cleanup_traversal_bypasses_containment :
    (cleanupFile "/tmp/chrome-mcp-uploads"
        (fun q => if q = "/tmp/chrome-mcp-uploads" ++ "/../../etc/passwd"
                  then some ⟨true, true, 1⟩ else none)
        (some ("/tmp/chrome-mcp-uploads" ++ "/../../etc/passwd"))).fst =
      { success := true, message := some "File cleaned up successfully" } ∧
    (cleanupFile "/tmp/chrome-mcp-uploads"
        (fun q => if q = "/tmp/chrome-mcp-uploads" ++ "/../../etc/passwd"
                  then some ⟨true, true, 1⟩ else none)
        (some ("/tmp/chrome-mcp-uploads" ++ "/../../etc/passwd"))).snd
      ("/tmp/chrome-mcp-uploads" ++ "/../../etc/passwd") = none := by
  exact ⟨rfl, rfl⟩

/-- C2 counterexample: in a scratch root with two entries both older than
one hour, where unlinking the first throws, the sweep leaves the second
(old, fault-free) entry undeleted — the deletion error on one entry does
prevent the remaining entries from being deleted, refuting the claim as
stated. -/
theorem sweep_abort_on_error_counterexample :
    sweepLoop 3600001 [⟨"a", 0, false, true⟩, ⟨"b", 0, false, false⟩] =
      [⟨"a", 0, false, true⟩, ⟨"b", 0, false, false⟩] ∧
    (3600001 : Int) - 0 > oneHour := by
  decide

/-- C2 amended: the sweep deletes exactly the entries older than the fixed
one-hour threshold provided no per-entry stat/unlink error occurs (errors
are caught and logged, never propagated, but the single try/catch wraps
the whole loop, so the first error aborts the remaining entries). -/
theorem sweep_deletes_old_entries_when_fault_free (now : Int) (entries : List SweepEntry)
    (h : ∀ e ∈ entries, e.statFails = false ∧ e.unlinkFails = false) :
    cleanupOldFiles now entries = entries.filter (fun e => now - e.mtime ≤ oneHour) := by
  revert h
  induction entries with
  | nil => intro h; rfl
  | cons e rest ih =>
    intro h
    have he := h e (by simp)
    have ihr := ih (fun x hx => h x (by simp [hx]))
    by_cases hold : now - e.mtime > oneHour
    · have hcond : ¬ (now ≤ oneHour + e.mtime) := by omega
      simp [cleanupOldFiles, sweepLoop, he.1, he.2, hold, List.filter_cons, hcond] at ihr ⊢
      exact ihr
    · have hcond : now ≤ oneHour + e.mtime := by omega
      simp [cleanupOldFiles, sweepLoop, he.1, hold, List.filter_cons, hcond] at ihr ⊢
      exact ihr

theorem sweep_deletes_old_entries_when_fault_free_witness :
    cleanupOldFiles 3600001 [⟨"a", 0, false, false⟩, ⟨"b", 3600000, false, false⟩] =
      [⟨"b", 3600000, false, false⟩] := by
  have := sweep_deletes_old_entries_when_fault_free 3600001
    [⟨"a", 0, false, false⟩, ⟨"b", 3600000, false, false⟩] (by decide)
  rw [this]; decide

/-- C6: for every variant value outside the enumerated ones, manifest-path
resolution — both tiers, every platform — returns the primary vendor's
(Chrome) path for that tier and platform rather than failing. -/
theorem unknown_variant_falls_back_to_chrome (tier : Tier) (platform : Platform)
    (env : Env) (b : String) (h1 : b ≠ "chrome") (h2 : b ≠ "chromium") :
    resolveManifestPath tier platform env b = resolveManifestPath tier platform env "chrome" := by
  cases tier <;> cases platform <;>
    simp [resolveManifestPath, getUserManifestPathForBrowser,
      getSystemManifestPathForBrowser, h1, h2]

theorem unknown_variant_falls_back_to_chrome_witness :
    resolveManifestPath .user .linux ⟨none, none, "/home/u"⟩ "firefox" =
      resolveManifestPath .user .linux ⟨none, none, "/home/u"⟩ "chrome" :=
  unknown_variant_falls_back_to_chrome .user .linux ⟨none, none, "/home/u"⟩ "firefox"
    (by decide) (by decide)

/-- C7: the installation tier resolves to system iff the `--system` flag is
set or the process runs with elevated OS privileges (root, i.e. uid 0, on
Unix-like platforms — where `process.getuid` exists — and a positive
`is-admin` probe on Windows, where `process.getuid` is undefined);
otherwise it resolves to user. -/
theorem register_tier_decision (systemFlag : Bool) (platform : Platform)
    (uid : Option Nat) (adminProbe : Option Bool)
    (hwin : platform = .win32 → uid = none) :
    resolveTier systemFlag platform uid adminProbe = .system ↔
      (systemFlag = true ∨ (platform ≠ .win32 ∧ uid = some 0) ∨
        (platform = .win32 ∧ adminProbe = some true)) := by
  cases platform <;> cases systemFlag <;> cases uid <;> cases adminProbe <;>
    simp_all [resolveTier, detectElevated]

theorem register_tier_decision_witness :
    resolveTier false .linux (some 0) none = .system ↔
      ((false = true) ∨ (Platform.linux ≠ .win32 ∧ (some 0 : Option Nat) = some 0) ∨
        (Platform.linux = .win32 ∧ (none : Option Bool) = some true)) :=
  register_tier_decision false .linux (some 0) none (by intro h; cases h)



/-- C5: for every supported `(variant, tier, platform)` triple and
environment, manifest-path resolution returns a non-empty path that starts
with the root prescribed by the spec's platform table (`%APPDATA%`- and
`%ProgramFiles%`-based on Windows, `Library`-based on macOS, `~/.config`
or `/etc` based on Linux) and ends in `NativeMessagingHosts/<host>.json`
(platform separator; platform-lowercase `native-messaging-hosts` on
system-tier Linux). -/
theorem manifest_path_matches_spec_table (tier : Tier) (platform : Platform)
    (env : Env) (browser : String)
    (hb : browser = "chrome" ∨ browser = "chromium") :
    resolveManifestPath tier platform env browser ≠ "" ∧
    strPrefixOf (specRoot platform tier env) (resolveManifestPath tier platform env browser) ∧
    strSuffixOf (specTailPart platform tier) (resolveManifestPath tier platform env browser) := by
  rcases hb with rfl | rfl <;> cases platform <;> cases tier
  · exact decomp_props _ "\\Google\\Chrome\\" _ _
      (by simp [resolveManifestPath, getUserManifestPathForBrowser, specRoot,
        specTailPart, pjoin, HOST_NAME, String.append_assoc]) (by decide)
  · exact decomp_props _ "\\Google\\Chrome\\" _ _
      (by simp [resolveManifestPath, getSystemManifestPathForBrowser, specRoot,
        specTailPart, pjoin, HOST_NAME, String.append_assoc]) (by decide)
  · exact decomp_props _ "/Application Support/Google/Chrome/" _ _
      (by simp [resolveManifestPath, getUserManifestPathForBrowser, specRoot,
        specTailPart, pjoin, HOST_NAME, String.append_assoc]) (by decide)
  · exact decomp_props _ "/Google/Chrome/" _ _
      (by simp [resolveManifestPath, getSystemManifestPathForBrowser, specRoot,
        specTailPart, pjoin, HOST_NAME, String.append_assoc]) (by decide)
  · exact decomp_props _ "/google-chrome/" _ _
      (by simp [resolveManifestPath, getUserManifestPathForBrowser, specRoot,
        specTailPart, pjoin, HOST_NAME, String.append_assoc]) (by decide)
  · exact decomp_props _ "/opt/chrome/" _ _
      (by simp [resolveManifestPath, getSystemManifestPathForBrowser, specRoot,
        specTailPart, pjoin, HOST_NAME, String.append_assoc]) (by decide)
  · exact decomp_props _ "\\Chromium\\" _ _
      (by simp [resolveManifestPath, getUserManifestPathForBrowser, specRoot,
        specTailPart, pjoin, HOST_NAME, String.append_assoc]) (by decide)
  · exact decomp_props _ "\\Chromium\\" _ _
      (by simp [resolveManifestPath, getSystemManifestPathForBrowser, specRoot,
        specTailPart, pjoin, HOST_NAME, String.append_assoc]) (by decide)
  · exact decomp_props _ "/Application Support/Chromium/" _ _
      (by simp [resolveManifestPath, getUserManifestPathForBrowser, specRoot,
        specTailPart, pjoin, HOST_NAME, String.append_assoc]) (by decide)
  · exact decomp_props _ "/Application Support/Chromium/" _ _
      (by simp [resolveManifestPath, getSystemManifestPathForBrowser, specRoot,
        specTailPart, pjoin, HOST_NAME, String.append_assoc]) (by decide)
  · exact decomp_props _ "/chromium/" _ _
      (by simp [resolveManifestPath, getUserManifestPathForBrowser, specRoot,
        specTailPart, pjoin, HOST_NAME, String.append_assoc]) (by decide)
  · exact decomp_props _ "/chromium/" _ _
      (by simp [resolveManifestPath, getSystemManifestPathForBrowser, specRoot,
        specTailPart, pjoin, HOST_NAME, String.append_assoc]) (by decide)

theorem manifest_path_matches_spec_table_witness :
    resolveManifestPath .user .darwin ⟨none, none, "/home/u"⟩ "chrome" ≠ "" ∧
    strPrefixOf (specRoot .darwin .user ⟨none, none, "/home/u"⟩)
      (resolveManifestPath .user .darwin ⟨none, none, "/home/u"⟩ "chrome") ∧
    strSuffixOf (specTailPart .darwin .user)
      (resolveManifestPath .user .darwin ⟨none, none, "/home/u"⟩ "chrome") :=
  manifest_path_matches_spec_table .user .darwin ⟨none, none, "/home/u"⟩ "chrome" (Or.inl rfl)




/-- C8: an existing-path staging request copies nothing (the filesystem is
returned unchanged) and returns success with metadata referencing the
original path exactly when the path exists, is a regular file, and is
readable; otherwise it yields `{success:false}` whose error message
carries the `Failed to verify file` class prefix, and the public boundary
always returns a structured result rather than throwing. -/
theorem verify_existing_path_semantics (o : Oracle) (sep tempDir p : String) (fs : FS)
    (hp : p ≠ "") :
    (handleFileRequest o sep tempDir fs
        { action := some "prepareFile", filePath := some p }).snd = fs ∧
    ∃ r, (handleFileRequest o sep tempDir fs
        { action := some "prepareFile", filePath := some p }).fst = some r ∧
      (r.success = true ↔ ∃ st, fs p = some st ∧ st.isFile = true ∧ st.readable = true) ∧
      (∀ st, fs p = some st → st.isFile = true → st.readable = true →
        r = { success := true, filePath := some p,
              fileName := some (posixBasename p), size := some st.size }) ∧
      (r.success = false → ∃ e, r.error = some e ∧ strPrefixOf "Failed to verify file: " e) := by
  have hmain : handleFileRequest o sep tempDir fs
      { action := some "prepareFile", filePath := some p } =
      (match verifyFile fs p with
       | .ok r => (some r, fs)
       | .error e => (some { success := false, error := some e }, fs)) := by
    simp [handleFileRequest, truthy, hp]
  cases hfp : fs p with
  | none =>
    have hv : verifyFile fs p =
        .error ("Failed to verify file: " ++ errStr ("File does not exist: " ++ p)) := by
      simp [verifyFile, hfp]
    rw [hmain, hv]
    exact ⟨rfl, _, rfl, by simp, by simp, fun _ => ⟨_, rfl, _, rfl⟩⟩
  | some st =>
    cases hif : st.isFile with
    | false =>
      have hv : verifyFile fs p =
          .error ("Failed to verify file: " ++ errStr ("Path is not a file: " ++ p)) := by
        simp [verifyFile, hfp, hif]
      rw [hmain, hv]
      exact ⟨rfl, _, rfl, by simp [hif], by simp [hif], fun _ => ⟨_, rfl, _, rfl⟩⟩
    | true =>
      cases hrd : st.readable with
      | false =>
        have hv : verifyFile fs p =
            .error ("Failed to verify file: " ++
              errStr ("EACCES: permission denied, access " ++ p)) := by
          simp [verifyFile, hfp, hif, hrd]
        rw [hmain, hv]
        exact ⟨rfl, _, rfl, by simp [hrd], by simp [hrd], fun _ => ⟨_, rfl, _, rfl⟩⟩
      | true =>
        have hv : verifyFile fs p =
            .ok { success := true, filePath := some p,
                  fileName := some (posixBasename p), size := some st.size } := by
          simp [verifyFile, hfp, hif, hrd]
        rw [hmain, hv]
        refine ⟨rfl, _, rfl, by simp [hif, hrd], ?_, by simp⟩
        intro st' hst' _ _
        obtain rfl : st = st' := Option.some.inj hst'
        rfl

theorem verify_existing_path_semantics_witness :
    (handleFileRequest ⟨fun _ => .error "network failure", fun _ => none,
        "aaaaaaaa", "bbbbbbbbbbbbbbbb", fun _ => 0, 0⟩ "/" "/tmp/chrome-mcp-uploads"
        (fun q => if q = "/home/u/report.pdf" then some ⟨true, true, 7⟩ else none)
        { action := some "prepareFile", filePath := some "/home/u/report.pdf" }).snd =
      (fun q => if q = "/home/u/report.pdf" then some ⟨true, true, 7⟩ else none) ∧
    ∃ r, (handleFileRequest ⟨fun _ => .error "network failure", fun _ => none,
        "aaaaaaaa", "bbbbbbbbbbbbbbbb", fun _ => 0, 0⟩ "/" "/tmp/chrome-mcp-uploads"
        (fun q => if q = "/home/u/report.pdf" then some ⟨true, true, 7⟩ else none)
        { action := some "prepareFile", filePath := some "/home/u/report.pdf" }).fst = some r ∧
      (r.success = true ↔ ∃ st,
        (if "/home/u/report.pdf" = "/home/u/report.pdf" then some (⟨true, true, 7⟩ : FileStat) else none) = some st ∧
        st.isFile = true ∧ st.readable = true) ∧
      (∀ st, (if "/home/u/report.pdf" = "/home/u/report.pdf" then some (⟨true, true, 7⟩ : FileStat) else none) = some st →
        st.isFile = true → st.readable = true →
        r = { success := true, filePath := some "/home/u/report.pdf",
              fileName := some (posixBasename "/home/u/report.pdf"), size := some st.size }) ∧
      (r.success = false → ∃ e, r.error = some e ∧ strPrefixOf "Failed to verify file: " e) :=
  verify_existing_path_semantics ⟨fun _ => .error "network failure", fun _ => none,
    "aaaaaaaa", "bbbbbbbbbbbbbbbb", fun _ => 0, 0⟩ "/" "/tmp/chrome-mcp-uploads"
    "/home/u/report.pdf"
    (fun q => if q = "/home/u/report.pdf" then some ⟨true, true, 7⟩ else none)
    (by decide)



/-- C3 counterexample: a `prepareFile` request with `fileUrl`, `base64Data`
and `filePath` all absent makes `handleFileRequest` return `undefined`
(`none`) — not a structured result — refuting the claim's universal
quantification over every request. -/
theorem handler_undefined_result_counterexample :
    (handleFileRequest ⟨fun _ => .error "network failure", fun _ => none,
        "aaaaaaaa", "bbbbbbbbbbbbbbbb", fun _ => 0, 0⟩ "/" "/tmp/chrome-mcp-uploads"
        (fun _ => none) { action := some "prepareFile" }).fst = none := rfl

/-- C3 amended: for every request except a `prepareFile` request whose
three source fields are all absent/empty, the public request handler
returns a structured result (internal failures are converted to
`{success:false, error}`), and a request whose action is neither
`prepareFile` nor `cleanupFile` returns `{success:false}` with an error
naming the unknown action (the stringified `undefined` when the action
field is missing). -/
theorem handler_structured_result_amended (o : Oracle) (sep tempDir : String) (fs : FS)
    (req : Request)
    (h : req.action = some "prepareFile" →
      truthy req.fileUrl = true ∨ truthy req.base64Data = true ∨ truthy req.filePath = true) :
    (∃ r, (handleFileRequest o sep tempDir fs req).fst = some r) ∧
    (∀ a, req.action = some a → a ≠ "prepareFile" → a ≠ "cleanupFile" →
      (handleFileRequest o sep tempDir fs req).fst =
        some { success := false, error := some ("Unknown file action: " ++ a) }) ∧
    (req.action = none →
      (handleFileRequest o sep tempDir fs req).fst =
        some { success := false, error := some ("Unknown file action: " ++ "undefined") }) := by
  refine ⟨?_, ?_, ?_⟩
  · by_cases hprep : req.action = some "prepareFile"
    · rcases h hprep with hu | hb | hf
      · cases hdl : downloadFile o sep tempDir fs (req.fileUrl.getD "") req.fileName with
        | ok v =>
          exact ⟨v.fst, by simp [handleFileRequest, hprep, hu, hdl]⟩
        | error e =>
          exact ⟨{ success := false, error := some e },
            by simp [handleFileRequest, hprep, hu, hdl]⟩
      · by_cases hu : truthy req.fileUrl = true
        · cases hdl : downloadFile o sep tempDir fs (req.fileUrl.getD "") req.fileName with
          | ok v => exact ⟨v.fst, by simp [handleFileRequest, hprep, hu, hdl]⟩
          | error e => exact ⟨{ success := false, error := some e },
              by simp [handleFileRequest, hprep, hu, hdl]⟩
        · cases hsv : saveBase64File o sep tempDir fs (req.base64Data.getD "") req.fileName with
          | ok v => exact ⟨v.fst, by simp [handleFileRequest, hprep, hu, hb, hsv]⟩
          | error e => exact ⟨{ success := false, error := some e },
              by simp [handleFileRequest, hprep, hu, hb, hsv]⟩
      · by_cases hu : truthy req.fileUrl = true
        · cases hdl : downloadFile o sep tempDir fs (req.fileUrl.getD "") req.fileName with
          | ok v => exact ⟨v.fst, by simp [handleFileRequest, hprep, hu, hdl]⟩
          | error e => exact ⟨{ success := false, error := some e },
              by simp [handleFileRequest, hprep, hu, hdl]⟩
        · by_cases hb : truthy req.base64Data = true
          · cases hsv : saveBase64File o sep tempDir fs (req.base64Data.getD "") req.fileName with
            | ok v => exact ⟨v.fst, by simp [handleFileRequest, hprep, hu, hb, hsv]⟩
            | error e => exact ⟨{ success := false, error := some e },
              by simp [handleFileRequest, hprep, hu, hb, hsv]⟩
          · cases hvf : verifyFile fs (req.filePath.getD "") with
            | ok v => exact ⟨v, by simp [handleFileRequest, hprep, hu, hb, hf, hvf]⟩
            | error e => exact ⟨{ success := false, error := some e },
                by simp [handleFileRequest, hprep, hu, hb, hf, hvf]⟩
    · by_cases hcl : req.action = some "cleanupFile"
      · exact ⟨(cleanupFile tempDir fs req.filePath).fst,
          by simp [handleFileRequest, hprep, hcl]⟩
      · exact ⟨{ success := false, error := some ("Unknown file action: " ++ jsStr req.action) },
          by simp [handleFileRequest, hprep, hcl]⟩
  · intro a ha h1 h2
    simp [handleFileRequest, ha, h1, h2, jsStr]
  · intro ha
    simp [handleFileRequest, ha, jsStr]

theorem handler_structured_result_amended_witness :
    (∃ r, (handleFileRequest ⟨fun _ => .error "network failure", fun _ => none,
        "aaaaaaaa", "bbbbbbbbbbbbbbbb", fun _ => 0, 0⟩ "/" "/tmp/chrome-mcp-uploads"
        (fun _ => none) { action := some "someOtherAction" }).fst = some r) ∧
    (∀ a, (some "someOtherAction" : Option String) = some a → a ≠ "prepareFile" →
      a ≠ "cleanupFile" →
      (handleFileRequest ⟨fun _ => .error "network failure", fun _ => none,
        "aaaaaaaa", "bbbbbbbbbbbbbbbb", fun _ => 0, 0⟩ "/" "/tmp/chrome-mcp-uploads"
        (fun _ => none) { action := some "someOtherAction" }).fst =
        some { success := false, error := some ("Unknown file action: " ++ a) }) ∧
    ((some "someOtherAction" : Option String) = none →
      (handleFileRequest ⟨fun _ => .error "network failure", fun _ => none,
        "aaaaaaaa", "bbbbbbbbbbbbbbbb", fun _ => 0, 0⟩ "/" "/tmp/chrome-mcp-uploads"
        (fun _ => none) { action := some "someOtherAction" }).fst =
        some { success := false, error := some ("Unknown file action: " ++ "undefined") }) :=
  handler_structured_result_amended ⟨fun _ => .error "network failure", fun _ => none,
    "aaaaaaaa", "bbbbbbbbbbbbbbbb", fun _ => 0, 0⟩ "/" "/tmp/chrome-mcp-uploads"
    (fun _ => none) { action := some "someOtherAction" } (by decide)



/-- C10: a `prepareFile` request in which `fileUrl`, `base64Data` and
`filePath` are all falsy (absent or empty) is the one and only request
shape whose outcome is not a structured result (the handler returns
`undefined`), and within `prepareFile`, `fileUrl` takes precedence over
`base64Data`, which takes precedence over `filePath`: clearing the
lower-precedence fields does not change the outcome. -/
theorem prepare_empty_undefined_and_source_precedence (o : Oracle) (sep tempDir : String)
    (fs : FS) (req : Request) :
    ((handleFileRequest o sep tempDir fs req).fst = none ↔
      (req.action = some "prepareFile" ∧ truthy req.fileUrl = false ∧
        truthy req.base64Data = false ∧ truthy req.filePath = false)) ∧
    (req.action = some "prepareFile" → truthy req.fileUrl = true →
      handleFileRequest o sep tempDir fs req =
        handleFileRequest o sep tempDir fs { req with base64Data := none, filePath := none }) ∧
    (req.action = some "prepareFile" → truthy req.base64Data = true →
      handleFileRequest o sep tempDir fs req =
        handleFileRequest o sep tempDir fs { req with filePath := none }) := by
  refine ⟨?_, ?_, ?_⟩
  · by_cases hprep : req.action = some "prepareFile"
    · by_cases hu : truthy req.fileUrl = true
      · cases hdl : downloadFile o sep tempDir fs (req.fileUrl.getD "") req.fileName with
        | ok v => simp [handleFileRequest, hprep, hu, hdl]
        | error e => simp [handleFileRequest, hprep, hu, hdl]
      · by_cases hb : truthy req.base64Data = true
        · cases hsv : saveBase64File o sep tempDir fs (req.base64Data.getD "") req.fileName with
          | ok v => simp [handleFileRequest, hprep, hu, hb, hsv]
          | error e => simp [handleFileRequest, hprep, hu, hb, hsv]
        · by_cases hf : truthy req.filePath = true
          · cases hvf : verifyFile fs (req.filePath.getD "") with
            | ok v => simp [handleFileRequest, hprep, hu, hb, hf, hvf]
            | error e => simp [handleFileRequest, hprep, hu, hb, hf, hvf]
          · simp [handleFileRequest, hprep, hu, hb, hf, Bool.not_eq_true] at *
    · by_cases hcl : req.action = some "cleanupFile"
      · simp [handleFileRequest, hprep, hcl]
      · simp [handleFileRequest, hprep, hcl]
  · intro hprep hu
    simp [handleFileRequest, hprep, hu]
  · intro hprep hb
    by_cases hu : truthy req.fileUrl = true
    · simp [handleFileRequest, hprep, hu]
    · simp [handleFileRequest, hprep, hu, hb]

theorem prepare_empty_undefined_and_source_precedence_witness :
    (((handleFileRequest ⟨fun _ => .error "network failure", fun _ => none,
        "aaaaaaaa", "bbbbbbbbbbbbbbbb", fun _ => 0, 0⟩ "/" "/tmp/chrome-mcp-uploads"
        (fun _ => none) { action := some "prepareFile", fileUrl := some "" }).fst = none ↔
      ((some "prepareFile" : Option String) = some "prepareFile" ∧
        truthy (some "") = false ∧ truthy none = false ∧ truthy none = false))) ∧
    (((some "prepareFile" : Option String) = some "prepareFile") → truthy (some "") = true →
      handleFileRequest ⟨fun _ => .error "network failure", fun _ => none,
        "aaaaaaaa", "bbbbbbbbbbbbbbbb", fun _ => 0, 0⟩ "/" "/tmp/chrome-mcp-uploads"
        (fun _ => none) { action := some "prepareFile", fileUrl := some "" } =
      handleFileRequest ⟨fun _ => .error "network failure", fun _ => none,
        "aaaaaaaa", "bbbbbbbbbbbbbbbb", fun _ => 0, 0⟩ "/" "/tmp/chrome-mcp-uploads"
        (fun _ => none) { ({ action := some "prepareFile", fileUrl := some "" } : Request) with
          base64Data := none, filePath := none }) ∧
    (((some "prepareFile" : Option String) = some "prepareFile") → truthy none = true →
      handleFileRequest ⟨fun _ => .error "network failure", fun _ => none,
        "aaaaaaaa", "bbbbbbbbbbbbbbbb", fun _ => 0, 0⟩ "/" "/tmp/chrome-mcp-uploads"
        (fun _ => none) { action := some "prepareFile", fileUrl := some "" } =
      handleFileRequest ⟨fun _ => .error "network failure", fun _ => none,
        "aaaaaaaa", "bbbbbbbbbbbbbbbb", fun _ => 0, 0⟩ "/" "/tmp/chrome-mcp-uploads"
        (fun _ => none) { ({ action := some "prepareFile", fileUrl := some "" } : Request) with
          filePath := none }) :=
  prepare_empty_undefined_and_source_precedence ⟨fun _ => .error "network failure",
    fun _ => none, "aaaaaaaa", "bbbbbbbbbbbbbbbb", fun _ => 0, 0⟩ "/"
    "/tmp/chrome-mcp-uploads" (fun _ => none)
    { action := some "prepareFile", fileUrl := some "" }



/-- C4: staging the same URL twice with no caller-supplied name and
distinct random draws synthesizes two distinct file names (the URL's final
path segment plus a random suffix, or a fully random name, per
`generateFileName`) and hence two distinct file paths — the second stage
never overwrites the first's file. -/
theorem same_url_two_stages_distinct_names (o1 o2 : Oracle) (sep tempDir url : String)
    (fs1 fs2 : FS) (hparse : o1.parseURL = o2.parseURL)
    (h4 : o1.rand4 ≠ o2.rand4) (h8 : o1.rand8 ≠ o2.rand8)
    (r1 r2 : FetchResp) (hf1 : o1.fetch url = .ok r1) (hf2 : o2.fetch url = .ok r2)
    (hok1 : r1.ok = true) (hok2 : r2.ok = true) :
    ∃ a1 g1 a2 g2,
      downloadFile o1 sep tempDir fs1 url none = .ok (a1, g1) ∧
      downloadFile o2 sep tempDir fs2 url none = .ok (a2, g2) ∧
      a1.fileName = some (generateFileName o1.parseURL o1.rand4 o1.rand8 url) ∧
      a2.fileName = some (generateFileName o2.parseURL o2.rand4 o2.rand8 url) ∧
      a1.fileName ≠ a2.fileName ∧ a1.filePath ≠ a2.filePath := by
  have hne : generateFileName o1.parseURL o1.rand4 o1.rand8 url ≠
      generateFileName o2.parseURL o2.rand4 o2.rand8 url := by
    rw [← hparse]
    exact generateFileName_inj o1.parseURL o1.rand4 o2.rand4 o1.rand8 o2.rand8 url h4 h8
  refine
    ⟨({ success := true,
        filePath := some (pjoin sep [tempDir, generateFileName o1.parseURL o1.rand4 o1.rand8 url]),
        fileName := some (generateFileName o1.parseURL o1.rand4 o1.rand8 url),
        size := some r1.bodyLen } : FHResponse),
    fsWrite fs1 (pjoin sep [tempDir, generateFileName o1.parseURL o1.rand4 o1.rand8 url]) r1.bodyLen,
    ({ success := true,
        filePath := some (pjoin sep [tempDir, generateFileName o2.parseURL o2.rand4 o2.rand8 url]),
        fileName := some (generateFileName o2.parseURL o2.rand4 o2.rand8 url),
        size := some r2.bodyLen } : FHResponse),
    fsWrite fs2 (pjoin sep [tempDir, generateFileName o2.parseURL o2.rand4 o2.rand8 url]) r2.bodyLen,
    ?_, ?_, rfl, rfl, ?_, ?_⟩
  · simp [downloadFile, hf1, hok1, truthy]
  · simp [downloadFile, hf2, hok2, truthy]
  · simpa using hne
  · simp only [ne_eq, Option.some.injEq]
    intro hpp
    apply hne
    have hcat : (tempDir ++ sep) ++ generateFileName o1.parseURL o1.rand4 o1.rand8 url =
        (tempDir ++ sep) ++ generateFileName o2.parseURL o2.rand4 o2.rand8 url := by
      simpa [pjoin, String.append_assoc] using hpp
    exact str_append_left_cancel hcat

theorem same_url_two_stages_distinct_names_witness :
    ∃ a1 g1 a2 g2,
      downloadFile ⟨fun _ => .ok ⟨true, "OK", 3⟩, fun _ => some "/docs/report.pdf",
          "11111111", "1111111111111111", fun _ => 0, 0⟩ "/" "/tmp/chrome-mcp-uploads"
          (fun _ => none) "https://example.com/docs/report.pdf" none = .ok (a1, g1) ∧
      downloadFile ⟨fun _ => .ok ⟨true, "OK", 3⟩, fun _ => some "/docs/report.pdf",
          "22222222", "2222222222222222", fun _ => 0, 0⟩ "/" "/tmp/chrome-mcp-uploads"
          (fun _ => none) "https://example.com/docs/report.pdf" none = .ok (a2, g2) ∧
      a1.fileName = some (generateFileName (fun _ => some "/docs/report.pdf")
        "11111111" "1111111111111111" "https://example.com/docs/report.pdf") ∧
      a2.fileName = some (generateFileName (fun _ => some "/docs/report.pdf")
        "22222222" "2222222222222222" "https://example.com/docs/report.pdf") ∧
      a1.fileName ≠ a2.fileName ∧ a1.filePath ≠ a2.filePath :=
  same_url_two_stages_distinct_names
    ⟨fun _ => .ok ⟨true, "OK", 3⟩, fun _ => some "/docs/report.pdf",
      "11111111", "1111111111111111", fun _ => 0, 0⟩
    ⟨fun _ => .ok ⟨true, "OK", 3⟩, fun _ => some "/docs/report.pdf",
      "22222222", "2222222222222222", fun _ => 0, 0⟩
    "/" "/tmp/chrome-mcp-uploads" "https://example.com/docs/report.pdf"
    (fun _ => none) (fun _ => none) rfl (by decide) (by decide)
    ⟨true, "OK", 3⟩ ⟨true, "OK", 3⟩ rfl rfl rfl rfl

end McpChrome
